import Mathlib

/-!
Shallow embedding of the Go package `httpretry` (file `base.go`), a retrying
HTTP client helper, together with proofs about its retry orchestration core.

Modelling choices:

* A `Response` is the pair (status code, fully-read body).  Go's `int` status
  code is modelled as `Int`; the body `[]byte` as `String`.
* The underlying transport (`client.Do` followed by `io.ReadAll`) is an
  external collaborator; each call to `doRequestWithRetries` is evaluated
  against an arbitrary deterministic outcome sequence `send : Nat → SendOutcome`
  where `send n` is the outcome of the n-th attempt (n starts at 1 like
  `retryCount` in the Go code).  `SendOutcome.failure` models a transport error,
  in which case `client.Do` returns a nil `*http.Response`; `SendOutcome.success`
  models a delivered response whose body was read in full.
* `doRequestWithRetries` is a loop `for retryCount < r.RetriesMax` over Go
  ints; starting from `retryCount = 0` it performs `max(RetriesMax, 0)`
  iterations, i.e. `RetriesMax.toNat` with `RetriesMax : Int`.  The loop state
  (`resp`, `respBody`, `err`) is threaded explicitly.  On a failed send the Go
  multiple assignment overwrites `resp` with nil and `respBody` with nil.
  The fall-through return `return respBody, resp.StatusCode, err` dereferences
  `resp`; when `resp` is nil this is a runtime panic, modelled by the
  `RunResult.nilDeref` constructor.  `RunResult.ok` carries the returned
  (body, status code, error) triple.  Both constructors also record two
  instrumentation counters that mirror the execution without influencing it:
  the number of attempts performed and the number of `time.Sleep(r.RetriesWait)`
  calls executed.
* `http.Header` is a map from (canonical) field names to value lists; the
  source only touches the already-canonical keys "Accept", "Content-Type" and
  "Authorization", so the map is modelled as an association list with
  first-match lookup and the `Get`/`Add`/`Set` operations of `net/http`.
* `time.Duration` is an `int64` count of nanoseconds, modelled as `Int`
  (`time.Second = 1000000000`).
* The request-construction steps performed inside the HTTP methods
  (`http.NewRequest`, and `url.ParseRequestURI` in `HttpDelete`) live in the
  standard library, outside this repository; their outcome for the configured
  URL is passed in as an explicit `Except` parameter.  A method returns
  `([]byte(""), 0, err)` when construction fails, before any attempt is made.
* The singleton client is a lazily initialised package-level variable; it is
  modelled by explicit state passing (`Option Nat` holds the identity of the
  stored client, `fresh` is the identity a new allocation would get).
-/

/-- HTTP response as seen by the retry loop: status code and fully read body. -/
structure Response where
  statusCode : Int
  body : String
deriving DecidableEq

/-- Outcome of one attempt's `doRequest` call: a transport error (Go's
`client.Do` then returns a nil response) or a delivered response. -/
inductive SendOutcome where
  | failure (e : String)
  | success (resp : Response)
deriving DecidableEq

/-- Whether a send outcome is a transport failure. -/
def SendOutcome.isFailure : SendOutcome → Bool
  | .failure _ => true
  | .success _ => false

/-- Result of `doRequestWithRetries`.  `ok body status err attempts waits` is a
normal return of the triple (body, status, err) after `attempts` attempts and
`waits` executed sleeps; `nilDeref attempts waits` is the runtime panic raised
by `resp.StatusCode` at the fall-through return when `resp` is nil. -/
inductive RunResult where
  | ok (body : String) (status : Int) (err : Option String) (attempts : Nat) (waits : Nat)
  | nilDeref (attempts : Nat) (waits : Nat)
deriving DecidableEq

/-- Number of attempts a run performed. -/
def RunResult.attempts : RunResult → Nat
  | .ok _ _ _ a _ => a
  | .nilDeref a _ => a

/-- Number of inter-attempt sleeps a run executed. -/
def RunResult.waits : RunResult → Nat
  | .ok _ _ _ _ w => w
  | .nilDeref _ w => w

/-- Go type `RetryPredicate func(resp *http.Response, retryCount int) bool`.
`retryCount` only takes the values 1, 2, ... in the loop, so it is a `Nat`. -/
abbrev RetryPredicate := Response → Nat → Bool

/-- Go type `http.Header` (map from canonical field name to list of values),
as an association list with first-match lookup. -/
abbrev HttpHeader := List (String × List String)

/-- Value list stored under a key (Go `h[key]`; missing key gives nil). -/
def headerValues : HttpHeader → String → List String
  | [], _ => []
  | (k, vs) :: rest, key => if k = key then vs else headerValues rest key

/-- Go `http.Header.Get`: first value for the key, or "" if absent/empty. -/
def headerGet (h : HttpHeader) (key : String) : String :=
  match headerValues h key with
  | [] => ""
  | v :: _ => v

/-- Go `http.Header.Add`: append a value to the key's list. -/
def headerAdd : HttpHeader → String → String → HttpHeader
  | [], key, v => [(key, [v])]
  | (k, vs) :: rest, key, v =>
    if k = key then (k, vs ++ [v]) :: rest
    else (k, vs) :: headerAdd rest key v

/-- Go `http.Header.Set`: replace the key's list by the single value. -/
def headerSet : HttpHeader → String → String → HttpHeader
  | [], key, v => [(key, [v])]
  | (k, vs) :: rest, key, v =>
    if k = key then (k, [v]) :: rest
    else (k, vs) :: headerSet rest key v

/-- Go struct `httpRequest` (base.go:49-56). -/
structure httpRequest where
  URL : Option String
  Token : String
  Header : HttpHeader
  RetriesMax : Int
  RetriesWait : Int
  IsRetryCondition : Option RetryPredicate

/-- Go struct `HttpRequestOptions` (base.go:58-86).  `Header` is `Option`
because the Go field may be a nil map. -/
structure HttpRequestOptions where
  URL : Option String
  Token : String
  Header : Option HttpHeader
  RetriesMax : Int
  RetriesWait : Int
  IsRetryCondition : Option RetryPredicate

/-- Accept-defaulting block of `NewHttpRequest` (base.go:140-144): when `Get`
returns "", `Add` the three default Accept values in order. -/
def mergeAccept (h : HttpHeader) : HttpHeader :=
  if headerGet h "Accept" = "" then
    headerAdd (headerAdd (headerAdd h "Accept" "application/vnd.api+json")
      "Accept" "application/json") "Accept" "*/*"
  else h

/-- Content-Type-defaulting block of `NewHttpRequest` (base.go:145-147). -/
def mergeContentType (h : HttpHeader) : HttpHeader :=
  if headerGet h "Content-Type" = "" then
    headerSet h "Content-Type" "application/vnd.api+json"
  else h

/-- Authorization-defaulting block of `NewHttpRequest` (base.go:148-150):
`fmt.Sprintf("Bearer %s", options.Token)`. -/
def mergeAuthorization (token : String) (h : HttpHeader) : HttpHeader :=
  if headerGet h "Authorization" = "" then
    headerSet h "Authorization" ("Bearer " ++ token)
  else h

/-- Go `NewHttpRequest` (base.go:128-160): default `RetriesMax` (10) and
`RetriesWait` (1s) when exactly zero, then merge default headers whenever
`Get` of the key returns "", in source order. -/
def NewHttpRequest (options : HttpRequestOptions) : httpRequest :=
  let retriesMax := if options.RetriesMax = 0 then 10 else options.RetriesMax
  let retriesWait := if options.RetriesWait = 0 then 1000000000 else options.RetriesWait
  let h0 := options.Header.getD []
  let h1 := mergeAccept h0
  let h2 := mergeContentType h1
  let h3 := mergeAuthorization options.Token h2
  { URL := options.URL
    Token := options.Token
    Header := h3
    RetriesMax := retriesMax
    RetriesWait := retriesWait
    IsRetryCondition := options.IsRetryCondition }

/-- Body of the `for retryCount < r.RetriesMax` loop of `doRequestWithRetries`
(base.go:110-125), by recursion on the remaining iterations `fuel`.  The
arguments `resp`, `respBody`, `err` are the Go local variables (Go `resp` is a
possibly-nil pointer, hence `Option Response`); `retryCount` and `waits` count
performed attempts and executed sleeps.  When `fuel` runs out the fall-through
`return respBody, resp.StatusCode, err` executes: a nil `resp` panics. -/
def retryLoop (pred : Option RetryPredicate) (send : Nat → SendOutcome) :
    Nat → Nat → Option Response → String → Option String → Nat → RunResult
  | 0, retryCount, some r, respBody, err, waits => .ok respBody r.statusCode err retryCount waits
  | 0, retryCount, none, _, _, waits => .nilDeref retryCount waits
  | fuel + 1, retryCount, _, _, _, waits =>
    match send (retryCount + 1) with
    | .failure e =>
      retryLoop pred send fuel (retryCount + 1) none "" (some e) (waits + 1)
    | .success r =>
      match pred with
      | none => .ok r.body r.statusCode none (retryCount + 1) waits
      | some p =>
        if p r (retryCount + 1) then
          retryLoop pred send fuel (retryCount + 1) (some r) r.body none (waits + 1)
        else .ok r.body r.statusCode none (retryCount + 1) waits

/-- Go `doRequestWithRetries` (base.go:106-126) evaluated against the outcome
sequence `send`. -/
def doRequestWithRetries (r : httpRequest) (send : Nat → SendOutcome) : RunResult :=
  retryLoop r.IsRetryCondition send r.RetriesMax.toNat 0 none "" none 0

/-- Go `HttpGet` (base.go:162-173).  `newRequest` is the outcome of
`http.NewRequest(http.MethodGet, r.URL.String(), nil)`: on error the method
returns `([]byte(""), 0, err)` before any attempt. -/
def HttpGet (r : httpRequest) (newRequest : Except String Unit)
    (send : Nat → SendOutcome) : RunResult :=
  match newRequest with
  | .error e => .ok "" 0 (some e) 0 0
  | .ok _ => doRequestWithRetries r send

/-- Go `HttpPost` (base.go:175-186); `object` is the request body. -/
def HttpPost (r : httpRequest) (object : String) (newRequest : Except String Unit)
    (send : Nat → SendOutcome) : RunResult :=
  match object, newRequest with
  | _, .error e => .ok "" 0 (some e) 0 0
  | _, .ok _ => doRequestWithRetries r send

/-- Go `HttpPatch` (base.go:188-199). -/
def HttpPatch (r : httpRequest) (object : String) (newRequest : Except String Unit)
    (send : Nat → SendOutcome) : RunResult :=
  match object, newRequest with
  | _, .error e => .ok "" 0 (some e) 0 0
  | _, .ok _ => doRequestWithRetries r send

/-- Go `HttpPut` (base.go:201-212). -/
def HttpPut (r : httpRequest) (object : String) (newRequest : Except String Unit)
    (send : Nat → SendOutcome) : RunResult :=
  match object, newRequest with
  | _, .error e => .ok "" 0 (some e) 0 0
  | _, .ok _ => doRequestWithRetries r send

/-- Go `HttpDelete` (base.go:214-231): first `url.ParseRequestURI(r.URL.String())`
(`parse`), then `http.NewRequest` on the reparsed string (`newRequest`); either
failure returns `([]byte(""), 0, err)` before any attempt. -/
def HttpDelete (r : httpRequest) (parse : Except String String)
    (newRequest : String → Except String Unit) (send : Nat → SendOutcome) : RunResult :=
  match parse with
  | .error e => .ok "" 0 (some e) 0 0
  | .ok urlStr =>
    match newRequest urlStr with
    | .error e => .ok "" 0 (some e) 0 0
    | .ok _ => doRequestWithRetries r send

/-- Go `GetSingletonHttpClient` (base.go:40-45) with the package-level
`httpClient` variable passed as explicit state.  Clients are identified by a
`Nat`; `fresh` is the identity `&http.Client{}` would allocate.  Returns the
client handed to the caller and the new state of the variable. -/
def GetSingletonHttpClient (httpClient : Option Nat) (fresh : Nat) : Nat × Option Nat :=
  match httpClient with
  | none => (fresh, some fresh)
  | some c => (c, some c)

/-- Whether attempt `n` makes the loop continue (no early return): a transport
failure always continues; a delivered response continues only when a retry
predicate is configured and evaluates to true. -/
def attemptContinues (pred : Option RetryPredicate) (send : Nat → SendOutcome)
    (n : Nat) : Bool :=
  match send n with
  | .failure _ => true
  | .success r =>
    match pred with
    | none => false
    | some p => p r n

/-! Lemmas about the header operations. -/

/-- Adding a value for a key appends it to that key's value list. -/
theorem headerValues_headerAdd_self (h : HttpHeader) (key v : String) :
    headerValues (headerAdd h key v) key = headerValues h key ++ [v] := by
  induction h with
  | nil => simp [headerAdd, headerValues]
  | cons kv rest ih =>
    obtain ⟨k, vs⟩ := kv
    by_cases hk : k = key
    · subst hk; simp [headerAdd, headerValues]
    · simp [headerAdd, headerValues, hk, ih]

/-- Adding a value for one key leaves every other key's value list unchanged. -/
theorem headerValues_headerAdd_ne (key2 key : String) (hne : key2 ≠ key)
    (h : HttpHeader) (v : String) :
    headerValues (headerAdd h key v) key2 = headerValues h key2 := by
  induction h with
  | nil => simp [headerAdd, headerValues, Ne.symm hne]
  | cons kv rest ih =>
    obtain ⟨k, vs⟩ := kv
    by_cases hk : k = key
    · subst hk; simp [headerAdd, headerValues, Ne.symm hne]
    · by_cases hk2 : k = key2
      · subst hk2; simp [headerAdd, headerValues, hk]
      · simp [headerAdd, headerValues, hk, hk2, ih]

/-- Setting a key makes its value list the given singleton. -/
theorem headerValues_headerSet_self (h : HttpHeader) (key v : String) :
    headerValues (headerSet h key v) key = [v] := by
  induction h with
  | nil => simp [headerSet, headerValues]
  | cons kv rest ih =>
    obtain ⟨k, vs⟩ := kv
    by_cases hk : k = key
    · subst hk; simp [headerSet, headerValues]
    · simp [headerSet, headerValues, hk, ih]

/-- Setting one key leaves every other key's value list unchanged. -/
theorem headerValues_headerSet_ne (key2 key : String) (hne : key2 ≠ key)
    (h : HttpHeader) (v : String) :
    headerValues (headerSet h key v) key2 = headerValues h key2 := by
  induction h with
  | nil => simp [headerSet, headerValues, Ne.symm hne]
  | cons kv rest ih =>
    obtain ⟨k, vs⟩ := kv
    by_cases hk : k = key
    · subst hk; simp [headerSet, headerValues, Ne.symm hne]
    · by_cases hk2 : k = key2
      · subst hk2; simp [headerSet, headerValues, hk]
      · simp [headerSet, headerValues, hk, hk2, ih]

/-- `Get` after `Add` at a different key is unchanged. -/
theorem headerGet_headerAdd_ne (key2 key : String) (hne : key2 ≠ key)
    (h : HttpHeader) (v : String) :
    headerGet (headerAdd h key v) key2 = headerGet h key2 := by
  unfold headerGet
  rw [headerValues_headerAdd_ne key2 key hne]

/-- `Get` after `Set` at a different key is unchanged. -/
theorem headerGet_headerSet_ne (key2 key : String) (hne : key2 ≠ key)
    (h : HttpHeader) (v : String) :
    headerGet (headerSet h key v) key2 = headerGet h key2 := by
  unfold headerGet
  rw [headerValues_headerSet_ne key2 key hne]

/-! Lemmas about one iteration of the retry loop. -/

/-- When attempt `retryCount + 1` makes the loop continue, one unfolding of the
loop is a recursive call with updated state, one more attempt and one more
executed sleep. -/
theorem retryLoop_step_continue (pred : Option RetryPredicate) (send : Nat → SendOutcome)
    (fuel retryCount : Nat) (r0 : Option Response) (b0 : String) (e0 : Option String)
    (waits : Nat) (h : attemptContinues pred send (retryCount + 1) = true) :
    ∃ r1 b1 e1, retryLoop pred send (fuel + 1) retryCount r0 b0 e0 waits =
      retryLoop pred send fuel (retryCount + 1) r1 b1 e1 (waits + 1) := by
  cases hs : send (retryCount + 1) with
  | failure e =>
    exact ⟨none, "", some e, by simp only [retryLoop, hs]⟩
  | success r =>
    cases pred with
    | none => simp [attemptContinues, hs] at h
    | some p =>
      simp only [attemptContinues, hs] at h
      refine ⟨some r, r.body, none, ?_⟩
      simp [retryLoop, hs, h]

/-- When attempt `retryCount + 1` does not make the loop continue, the send
delivered a response on which the predicate (if any) is false, and the loop
returns that response's body and status with no error and no further sleep. -/
theorem retryLoop_step_return (pred : Option RetryPredicate) (send : Nat → SendOutcome)
    (fuel retryCount : Nat) (r0 : Option Response) (b0 : String) (e0 : Option String)
    (waits : Nat) (h : attemptContinues pred send (retryCount + 1) = false) :
    ∃ r, send (retryCount + 1) = .success r ∧
      retryLoop pred send (fuel + 1) retryCount r0 b0 e0 waits =
        .ok r.body r.statusCode none (retryCount + 1) waits := by
  cases hs : send (retryCount + 1) with
  | failure e =>
    simp [attemptContinues, hs] at h
  | success r =>
    refine ⟨r, rfl, ?_⟩
    cases pred with
    | none => simp only [retryLoop, hs]
    | some p =>
      simp only [attemptContinues, hs] at h
      simp [retryLoop, hs, h]

/-! Inductive lemmas about the whole retry loop. -/

/-- When every send fails at the transport level, the loop consumes all its
iterations with `resp` equal to nil and the fall-through return dereferences
the nil response: the run panics after `fuel` attempts and `fuel` sleeps. -/
theorem retryLoop_allFail (pred : Option RetryPredicate) (send : Nat → SendOutcome)
    (hf : ∀ n, (send n).isFailure = true) :
    ∀ fuel retryCount r0 b0 e0 waits, 1 ≤ fuel →
      retryLoop pred send fuel retryCount r0 b0 e0 waits =
        .nilDeref (retryCount + fuel) (waits + fuel) := by
  intro fuel
  induction fuel with
  | zero => intro rc r0 b0 e0 w h; exact absurd h (by omega)
  | succ f ih =>
    intro rc r0 b0 e0 w _
    cases hs : send (rc + 1) with
    | success r =>
      have hh := hf (rc + 1)
      rw [hs] at hh
      simp [SendOutcome.isFailure] at hh
    | failure e =>
      simp only [retryLoop, hs]
      rcases Nat.eq_zero_or_pos f with h0 | hpos
      · subst h0
        simp only [retryLoop]
      · rw [ih (rc + 1) none "" (some e) (w + 1) hpos]
        congr 1 <;> omega

/-- When every attempt in range makes the loop continue, the loop exits by
exhaustion: all iterations are consumed, and a sleep is executed after every
attempt, the final one included. -/
theorem retryLoop_allContinue (pred : Option RetryPredicate) (send : Nat → SendOutcome) :
    ∀ fuel retryCount r0 b0 e0 waits,
      (∀ n, retryCount + 1 ≤ n → n ≤ retryCount + fuel →
        attemptContinues pred send n = true) →
      (retryLoop pred send fuel retryCount r0 b0 e0 waits).attempts = retryCount + fuel ∧
      (retryLoop pred send fuel retryCount r0 b0 e0 waits).waits = waits + fuel := by
  intro fuel
  induction fuel with
  | zero =>
    intro rc r0 b0 e0 w _
    cases r0 <;> simp [retryLoop, RunResult.attempts, RunResult.waits]
  | succ f ih =>
    intro rc r0 b0 e0 w hc
    have h1 : attemptContinues pred send (rc + 1) = true := hc (rc + 1) (le_refl _) (by omega)
    obtain ⟨r1, b1, e1, hstep⟩ :=
      retryLoop_step_continue pred send f rc r0 b0 e0 w h1
    rw [hstep]
    obtain ⟨ha, hw⟩ := ih (rc + 1) r1 b1 e1 (w + 1)
      (fun n hn1 hn2 => hc n (by omega) (by omega))
    constructor
    · rw [ha]; omega
    · rw [hw]; omega

/-- When attempts strictly before `a` make the loop continue and attempt `a`
does not (with `a` within the iteration budget), the loop returns early at
attempt `a`: the response delivered at attempt `a` is returned with no error,
and no sleep follows attempt `a`. -/
theorem retryLoop_earlyReturn (pred : Option RetryPredicate) (send : Nat → SendOutcome) :
    ∀ fuel retryCount r0 b0 e0 waits a, retryCount < a → a ≤ retryCount + fuel →
      (∀ n, retryCount < n → n < a → attemptContinues pred send n = true) →
      attemptContinues pred send a = false →
      ∃ r, send a = .success r ∧
        retryLoop pred send fuel retryCount r0 b0 e0 waits =
          .ok r.body r.statusCode none a (waits + (a - retryCount - 1)) := by
  intro fuel
  induction fuel with
  | zero => intro rc r0 b0 e0 w a h1 h2 _ _; exact absurd h2 (by omega)
  | succ f ih =>
    intro rc r0 b0 e0 w a hlt hle hcont hstop
    rcases Nat.lt_or_ge (rc + 1) a with hgt | hge
    · have h1 : attemptContinues pred send (rc + 1) = true := hcont (rc + 1) (by omega) hgt
      obtain ⟨r1, b1, e1, hstep⟩ :=
        retryLoop_step_continue pred send f rc r0 b0 e0 w h1
      rw [hstep]
      obtain ⟨r, hr, heq⟩ := ih (rc + 1) r1 b1 e1 (w + 1) a (by omega) (by omega)
        (fun n hn1 hn2 => hcont n (by omega) hn2) hstop
      refine ⟨r, hr, ?_⟩
      rw [heq]
      congr 1
      omega
    · have ha : a = rc + 1 := by omega
      subst ha
      obtain ⟨r, hr, heq⟩ :=
        retryLoop_step_return pred send f rc r0 b0 e0 w hstop
      refine ⟨r, hr, ?_⟩
      rw [heq]
      congr 1
      omega

/-- When every send delivers a response and the configured predicate is true on
every attempt in range, the loop exits by exhaustion and the fall-through
return yields the last response's body and status with a nil error. -/
theorem retryLoop_allTrue (p : RetryPredicate) (resp : Nat → Response) :
    ∀ fuel retryCount r0 b0 e0 waits, 1 ≤ fuel →
      (∀ n, retryCount + 1 ≤ n → n ≤ retryCount + fuel → p (resp n) n = true) →
      retryLoop (some p) (fun n => .success (resp n)) fuel retryCount r0 b0 e0 waits =
        .ok (resp (retryCount + fuel)).body (resp (retryCount + fuel)).statusCode none
          (retryCount + fuel) (waits + fuel) := by
  intro fuel
  induction fuel with
  | zero => intro rc r0 b0 e0 w h _; exact absurd h (by omega)
  | succ f ih =>
    intro rc r0 b0 e0 w _ hp
    have h1 : p (resp (rc + 1)) (rc + 1) = true := hp (rc + 1) (le_refl _) (by omega)
    simp only [retryLoop, h1, if_true]
    rcases Nat.eq_zero_or_pos f with h0 | hpos
    · subst h0
      simp only [retryLoop]
    · rw [ih (rc + 1) (some (resp (rc + 1))) (resp (rc + 1)).body none (w + 1) hpos
        (fun n hn1 hn2 => hp n (by omega) (by omega))]
      rw [show rc + 1 + f = rc + (f + 1) from by omega,
        show w + 1 + f = w + (f + 1) from by omega]

/-- When every send fails at the transport level and at least one attempt is
allowed, `doRequestWithRetries` performs all its attempts and then panics on
the nil response instead of returning the last transport error. -/
theorem doRequestWithRetries_allFail (cfg : httpRequest) (send : Nat → SendOutcome)
    (hf : ∀ n, (send n).isFailure = true) (hN : 1 ≤ cfg.RetriesMax) :
    doRequestWithRetries cfg send =
      .nilDeref cfg.RetriesMax.toNat cfg.RetriesMax.toNat := by
  unfold doRequestWithRetries
  have h1 : 1 ≤ cfg.RetriesMax.toNat := by omega
  simpa using retryLoop_allFail cfg.IsRetryCondition send hf cfg.RetriesMax.toNat
    0 none "" none 0 h1

/-- Transport outcome sequence in which every attempt fails. -/
def sendFailAlways : Nat → SendOutcome := fun _ => .failure "dial tcp: connection refused"

/-- Options asking for three attempts, no headers, no retry predicate. -/
def optsThreeRetries : HttpRequestOptions :=
  { URL := some "http://127.0.0.1:1", Token := "", Header := none,
    RetriesMax := 3, RetriesWait := 0, IsRetryCondition := none }

/-- Configuration with three allowed attempts and no retry predicate. -/
def cfgThreeRetries : httpRequest := NewHttpRequest optsThreeRetries

/-- C1: with `maxRetries = 3` and a transport that fails on every attempt, the
loop does perform exactly 3 attempts, but instead of returning the last
transport error with a zero status code it dereferences the nil response at
the fall-through return and panics. -/
theorem claim_C1_transport_exhaustion_panics :
    doRequestWithRetries cfgThreeRetries sendFailAlways = RunResult.nilDeref 3 3 := by
  decide

/-- Options asking for a single attempt, no headers, no retry predicate. -/
def optsOneRetry : HttpRequestOptions :=
  { URL := some "http://127.0.0.1:1", Token := "", Header := none,
    RetriesMax := 1, RetriesWait := 0, IsRetryCondition := none }

/-- Configuration with a single allowed attempt and no retry predicate. -/
def cfgOneRetry : httpRequest := NewHttpRequest optsOneRetry

/-- C2: the request methods are not total: when every transport send fails,
each of the five methods reaches the nil-response dereference, i.e. a runtime
panic escapes instead of a (body, status, error) return value. -/
theorem claim_C2_methods_panic_on_transport_failure :
    HttpGet cfgOneRetry (Except.ok ()) sendFailAlways = RunResult.nilDeref 1 1 ∧
    HttpPost cfgOneRetry "payload" (Except.ok ()) sendFailAlways = RunResult.nilDeref 1 1 ∧
    HttpPatch cfgOneRetry "payload" (Except.ok ()) sendFailAlways = RunResult.nilDeref 1 1 ∧
    HttpPut cfgOneRetry "payload" (Except.ok ()) sendFailAlways = RunResult.nilDeref 1 1 ∧
    HttpDelete cfgOneRetry (Except.ok "http://127.0.0.1:1") (fun _ => Except.ok ())
      sendFailAlways = RunResult.nilDeref 1 1 := by
  refine ⟨by decide, by decide, by decide, by decide, by decide⟩

/-- C3: with a retry predicate that is true on every attempt and a transport
that always delivers a response, the loop performs exactly `RetriesMax`
attempts and returns the last response's body and status with a nil error. -/
theorem claim_C3_predicate_exhaustion_returns_last_response (cfg : httpRequest)
    (p : RetryPredicate) (resp : Nat → Response)
    (hpred : cfg.IsRetryCondition = some p)
    (hp : ∀ n, 1 ≤ n → n ≤ cfg.RetriesMax.toNat → p (resp n) n = true)
    (hN : 1 ≤ cfg.RetriesMax) :
    doRequestWithRetries cfg (fun n => .success (resp n)) =
      .ok (resp cfg.RetriesMax.toNat).body (resp cfg.RetriesMax.toNat).statusCode none
        cfg.RetriesMax.toNat cfg.RetriesMax.toNat := by
  unfold doRequestWithRetries
  rw [hpred]
  have h1 : 1 ≤ cfg.RetriesMax.toNat := by omega
  have h2 := retryLoop_allTrue p resp cfg.RetriesMax.toNat 0 none "" none 0 h1
    (fun n hn1 hn2 => hp n (by omega) (by omega))
  simpa using h2

/-- Retry predicate that is true on every response and attempt. -/
def predTrue : RetryPredicate := fun _ _ => true

/-- Response sequence that always delivers 503 with body "busy". -/
def respBusy : Nat → Response := fun _ => { statusCode := 503, body := "busy" }

/-- Configuration with two allowed attempts and an always-true predicate. -/
def cfgC3w : httpRequest :=
  { URL := none, Token := "", Header := [], RetriesMax := 2, RetriesWait := 0,
    IsRetryCondition := some predTrue }

/-- Witness for C3 at a concrete configuration: two attempts, last response
returned, no error. -/
theorem claim_C3_witness :
    cfgC3w.IsRetryCondition = some predTrue ∧
    (∀ n, 1 ≤ n → n ≤ cfgC3w.RetriesMax.toNat → predTrue (respBusy n) n = true) ∧
    1 ≤ cfgC3w.RetriesMax ∧
    doRequestWithRetries cfgC3w (fun n => .success (respBusy n)) =
      .ok "busy" 503 none 2 2 :=
  ⟨rfl, fun _ _ _ => rfl, by decide,
    claim_C3_predicate_exhaustion_returns_last_response cfgC3w predTrue respBusy rfl
      (fun _ _ _ => rfl) (by decide)⟩

/-- C4: when the first send delivers a response and the predicate is absent or
false on it, the loop performs exactly one attempt, sleeps zero times, and
returns that response's body and status with no error, whatever the status. -/
theorem claim_C4_first_response_returned_when_predicate_not_triggered
    (cfg : httpRequest) (send : Nat → SendOutcome) (r : Response)
    (hN : 1 ≤ cfg.RetriesMax) (hsend : send 1 = .success r)
    (hpred : cfg.IsRetryCondition = none ∨
      ∃ p, cfg.IsRetryCondition = some p ∧ p r 1 = false) :
    doRequestWithRetries cfg send = .ok r.body r.statusCode none 1 0 := by
  have hstop : attemptContinues cfg.IsRetryCondition send 1 = false := by
    unfold attemptContinues
    rw [hsend]
    rcases hpred with h | ⟨p, hp, hfalse⟩
    · rw [h]
    · rw [hp]
      exact hfalse
  unfold doRequestWithRetries
  obtain ⟨r2, hr2, heq⟩ := retryLoop_earlyReturn cfg.IsRetryCondition send
    cfg.RetriesMax.toNat 0 none "" none 0 1 (by omega) (by omega)
    (fun n h1 h2 => absurd h2 (by omega)) hstop
  rw [hsend] at hr2
  injection hr2 with hr3
  rw [heq, ← hr3]

/-- Concrete 404 response. -/
def respNotFound : Response := { statusCode := 404, body := "not found" }

/-- Configuration with ten allowed attempts and no retry predicate. -/
def cfgC4w : httpRequest :=
  { URL := none, Token := "", Header := [], RetriesMax := 10, RetriesWait := 0,
    IsRetryCondition := none }

/-- Transport sequence that always delivers the 404 response. -/
def sendC4w : Nat → SendOutcome := fun _ => .success respNotFound

/-- Witness for C4 at a concrete configuration: one attempt, 404 returned as
body/status with no error. -/
theorem claim_C4_witness :
    1 ≤ cfgC4w.RetriesMax ∧ sendC4w 1 = .success respNotFound ∧
    cfgC4w.IsRetryCondition = none ∧
    doRequestWithRetries cfgC4w sendC4w = .ok "not found" 404 none 1 0 :=
  ⟨by decide, rfl, rfl,
    claim_C4_first_response_returned_when_predicate_not_triggered cfgC4w sendC4w respNotFound
      (by decide) rfl (Or.inl rfl)⟩

/-- Retry predicate of the integration test: retry while the status is not 200
(`resp.StatusCode != http.StatusOK`). -/
def isNot200 : RetryPredicate := fun r _ => r.statusCode != 200

/-- C5: with the predicate `status != 200`, a transport that delivers non-200
responses for the first K attempts and then a 200 response echoing the sent
body, and `K < RetriesMax`, the loop performs exactly K+1 attempts and returns
the echoed body with status 200 and no error. -/
theorem claim_C5_retry_until_200_returns_echoed_body (cfg : httpRequest)
    (resp : Nat → Response) (K : Nat) (body : String)
    (hpred : cfg.IsRetryCondition = some isNot200)
    (hK : ∀ n, 1 ≤ n → n ≤ K → (resp n).statusCode ≠ 200)
    (h200 : (resp (K + 1)).statusCode = 200)
    (hecho : (resp (K + 1)).body = body)
    (hN : (K : Int) + 1 ≤ cfg.RetriesMax) :
    doRequestWithRetries cfg (fun n => .success (resp n)) =
      .ok body 200 none (K + 1) K := by
  have hcont : ∀ n, 0 < n → n < K + 1 →
      attemptContinues cfg.IsRetryCondition (fun n => .success (resp n)) n = true := by
    intro n h1 h2
    rw [hpred]
    simp [attemptContinues, isNot200, hK n (by omega) (by omega)]
  have hstop : attemptContinues cfg.IsRetryCondition
      (fun n => .success (resp n)) (K + 1) = false := by
    rw [hpred]
    simp [attemptContinues, isNot200, h200]
  unfold doRequestWithRetries
  obtain ⟨r2, hr2, heq⟩ := retryLoop_earlyReturn cfg.IsRetryCondition
    (fun n => .success (resp n)) cfg.RetriesMax.toNat 0 none "" none 0 (K + 1)
    (by omega) (by omega) hcont hstop
  have hr2b : SendOutcome.success (resp (K + 1)) = .success r2 := hr2
  injection hr2b with hr3
  rw [heq, show 0 + (K + 1 - 0 - 1) = K from by omega, ← hr3, hecho, h200]

/-- Responses of the integration test server: 429 for the first five attempts,
then 200 echoing the request body. -/
def respC5w : Nat → Response := fun n =>
  if n ≤ 5 then { statusCode := 429, body := "" }
  else { statusCode := 200, body := "payload" }

/-- Options of the integration test: defaults plus the `status != 200`
predicate. -/
def optsC5w : HttpRequestOptions :=
  { URL := some "http://test-server", Token := "", Header := none,
    RetriesMax := 0, RetriesWait := 0, IsRetryCondition := some isNot200 }

/-- Configuration of the integration test (RetriesMax defaults to 10). -/
def cfgC5w : httpRequest := NewHttpRequest optsC5w

/-- Witness for C5 on the integration-test scenario: five 429 responses, then
200 echoing the body; six attempts, echoed body returned, no error. -/
theorem claim_C5_witness :
    cfgC5w.IsRetryCondition = some isNot200 ∧
    (∀ n, 1 ≤ n → n ≤ 5 → (respC5w n).statusCode ≠ 200) ∧
    (respC5w 6).statusCode = 200 ∧
    (respC5w 6).body = "payload" ∧
    ((5 : Nat) : Int) + 1 ≤ cfgC5w.RetriesMax ∧
    doRequestWithRetries cfgC5w (fun n => .success (respC5w n)) =
      .ok "payload" 200 none 6 5 := by
  have hK : ∀ n, 1 ≤ n → n ≤ 5 → (respC5w n).statusCode ≠ 200 := by
    intro n _ h5
    unfold respC5w
    rw [if_pos h5]
    decide
  refine ⟨rfl, hK, rfl, rfl, by decide, ?_⟩
  exact claim_C5_retry_until_200_returns_echoed_body cfgC5w respC5w 5 "payload" rfl hK
    rfl rfl (by decide)

/-! Lemmas about the header-defaulting blocks. -/

/-- Accept values after the Accept block: the three defaults are appended
(in order) exactly when `Get` returned "". -/
theorem headerValues_mergeAccept (h : HttpHeader) :
    headerValues (mergeAccept h) "Accept" =
      if headerGet h "Accept" = "" then
        headerValues h "Accept" ++ ["application/vnd.api+json", "application/json", "*/*"]
      else headerValues h "Accept" := by
  unfold mergeAccept
  split
  · rw [headerValues_headerAdd_self, headerValues_headerAdd_self,
      headerValues_headerAdd_self]
    simp
  · rfl

/-- The Accept block leaves other keys' value lists unchanged. -/
theorem headerValues_mergeAccept_ne (key : String) (hne : key ≠ "Accept")
    (h : HttpHeader) :
    headerValues (mergeAccept h) key = headerValues h key := by
  unfold mergeAccept
  split
  · rw [headerValues_headerAdd_ne key _ hne, headerValues_headerAdd_ne key _ hne,
      headerValues_headerAdd_ne key _ hne]
  · rfl

/-- The Accept block leaves `Get` of other keys unchanged. -/
theorem headerGet_mergeAccept_ne (key : String) (hne : key ≠ "Accept")
    (h : HttpHeader) :
    headerGet (mergeAccept h) key = headerGet h key := by
  unfold headerGet
  rw [headerValues_mergeAccept_ne key hne]

/-- Content-Type values after the Content-Type block. -/
theorem headerValues_mergeContentType (h : HttpHeader) :
    headerValues (mergeContentType h) "Content-Type" =
      if headerGet h "Content-Type" = "" then ["application/vnd.api+json"]
      else headerValues h "Content-Type" := by
  unfold mergeContentType
  split
  · rw [headerValues_headerSet_self]
  · rfl

/-- The Content-Type block leaves other keys' value lists unchanged. -/
theorem headerValues_mergeContentType_ne (key : String) (hne : key ≠ "Content-Type")
    (h : HttpHeader) :
    headerValues (mergeContentType h) key = headerValues h key := by
  unfold mergeContentType
  split
  · rw [headerValues_headerSet_ne key _ hne]
  · rfl

/-- The Content-Type block leaves `Get` of other keys unchanged. -/
theorem headerGet_mergeContentType_ne (key : String) (hne : key ≠ "Content-Type")
    (h : HttpHeader) :
    headerGet (mergeContentType h) key = headerGet h key := by
  unfold headerGet
  rw [headerValues_mergeContentType_ne key hne]

/-- Authorization values after the Authorization block. -/
theorem headerValues_mergeAuthorization (token : String) (h : HttpHeader) :
    headerValues (mergeAuthorization token h) "Authorization" =
      if headerGet h "Authorization" = "" then ["Bearer " ++ token]
      else headerValues h "Authorization" := by
  unfold mergeAuthorization
  split
  · rw [headerValues_headerSet_self]
  · rfl

/-- The Authorization block leaves other keys' value lists unchanged. -/
theorem headerValues_mergeAuthorization_ne (key : String) (hne : key ≠ "Authorization")
    (token : String) (h : HttpHeader) :
    headerValues (mergeAuthorization token h) key = headerValues h key := by
  unfold mergeAuthorization
  split
  · rw [headerValues_headerSet_ne key _ hne]
  · rfl

/-- The header stored by `NewHttpRequest` is the three defaulting blocks
applied in source order to the caller's header (empty when nil). -/
theorem NewHttpRequest_Header_eq (options : HttpRequestOptions) :
    (NewHttpRequest options).Header =
      mergeAuthorization options.Token
        (mergeContentType (mergeAccept (options.Header.getD []))) := rfl

/-- C6 (amended): keys whose `Get` is non-empty in the caller's header keep
their value lists; a key whose `Get` is "" receives the default (for Accept the
three defaults are appended after any caller-supplied values, for the other two
keys the value list becomes the default singleton; an empty token yields the
literal "Bearer " value). -/
theorem claim_C6_default_headers_merge (options : HttpRequestOptions) :
    (headerValues (NewHttpRequest options).Header "Accept" =
      if headerGet (options.Header.getD []) "Accept" = "" then
        headerValues (options.Header.getD []) "Accept" ++
          ["application/vnd.api+json", "application/json", "*/*"]
      else headerValues (options.Header.getD []) "Accept") ∧
    (headerValues (NewHttpRequest options).Header "Content-Type" =
      if headerGet (options.Header.getD []) "Content-Type" = "" then
        ["application/vnd.api+json"]
      else headerValues (options.Header.getD []) "Content-Type") ∧
    (headerValues (NewHttpRequest options).Header "Authorization" =
      if headerGet (options.Header.getD []) "Authorization" = "" then
        ["Bearer " ++ options.Token]
      else headerValues (options.Header.getD []) "Authorization") := by
  rw [NewHttpRequest_Header_eq]
  refine ⟨?_, ?_, ?_⟩
  · rw [headerValues_mergeAuthorization_ne "Accept" (by decide),
      headerValues_mergeContentType_ne "Accept" (by decide),
      headerValues_mergeAccept]
  · rw [headerValues_mergeAuthorization_ne "Content-Type" (by decide),
      headerValues_mergeContentType,
      headerGet_mergeAccept_ne "Content-Type" (by decide),
      headerValues_mergeAccept_ne "Content-Type" (by decide)]
  · rw [headerValues_mergeAuthorization,
      headerGet_mergeContentType_ne "Authorization" (by decide),
      headerGet_mergeAccept_ne "Authorization" (by decide),
      headerValues_mergeContentType_ne "Authorization" (by decide),
      headerValues_mergeAccept_ne "Authorization" (by decide)]

/-- Options whose caller-supplied Content-Type value is the empty string. -/
def optsEmptyCT : HttpRequestOptions :=
  { URL := none, Token := "t", Header := some [("Content-Type", [""])],
    RetriesMax := 0, RetriesWait := 0, IsRetryCondition := none }

/-- C6 counterexample: a caller-supplied `Content-Type` whose value is the
empty string is NOT left unchanged; `Get` returns "" for it, so the
construction overwrites it with the default. -/
theorem claim_C6_counterexample :
    headerValues (optsEmptyCT.Header.getD []) "Content-Type" = [""] ∧
    headerValues (NewHttpRequest optsEmptyCT).Header "Content-Type" ≠ [""] ∧
    headerValues (NewHttpRequest optsEmptyCT).Header "Content-Type" =
      ["application/vnd.api+json"] := by
  refine ⟨by decide, by decide, by decide⟩

/-- The max-retries field stored by `NewHttpRequest` (defaulted only when the
input is exactly zero). -/
theorem NewHttpRequest_RetriesMax_eq (options : HttpRequestOptions) :
    (NewHttpRequest options).RetriesMax =
      if options.RetriesMax = 0 then 10 else options.RetriesMax := rfl

/-- The wait field stored by `NewHttpRequest` (defaulted only when the input
is exactly zero). -/
theorem NewHttpRequest_RetriesWait_eq (options : HttpRequestOptions) :
    (NewHttpRequest options).RetriesWait =
      if options.RetriesWait = 0 then 1000000000 else options.RetriesWait := rfl

/-- Options with a negative max-retries count (a representable Go `int`). -/
def optsNegRetries : HttpRequestOptions :=
  { URL := none, Token := "", Header := none, RetriesMax := -1, RetriesWait := 0,
    IsRetryCondition := none }

/-- C7 counterexample: `NewHttpRequest` only defaults `RetriesMax` when it is
exactly zero, so a negative input survives and the constructed configuration
violates the claimed invariant `RetriesMax ≥ 1`. -/
theorem claim_C7_counterexample :
    (NewHttpRequest optsNegRetries).RetriesMax = -1 ∧
    ¬ (1 ≤ (NewHttpRequest optsNegRetries).RetriesMax) := by
  refine ⟨by decide, by decide⟩

/-- C7 (amended): for every construction input with a non-negative max-retries
count the constructed configuration satisfies `RetriesMax ≥ 1`; a zero
max-retries count is defaulted to 10 and a zero wait to 1 second, and non-zero
inputs are kept. -/
theorem claim_C7_defaults (options : HttpRequestOptions) :
    (0 ≤ options.RetriesMax → 1 ≤ (NewHttpRequest options).RetriesMax) ∧
    (options.RetriesMax = 0 → (NewHttpRequest options).RetriesMax = 10) ∧
    (options.RetriesMax ≠ 0 → (NewHttpRequest options).RetriesMax = options.RetriesMax) ∧
    (options.RetriesWait = 0 → (NewHttpRequest options).RetriesWait = 1000000000) ∧
    (options.RetriesWait ≠ 0 → (NewHttpRequest options).RetriesWait = options.RetriesWait) := by
  rw [NewHttpRequest_RetriesMax_eq, NewHttpRequest_RetriesWait_eq]
  by_cases hM : options.RetriesMax = 0 <;> by_cases hW : options.RetriesWait = 0 <;>
    simp [hM, hW] <;> omega

/-- Options with both numeric fields unset (zero). -/
def optsZero : HttpRequestOptions :=
  { URL := none, Token := "", Header := none, RetriesMax := 0, RetriesWait := 0,
    IsRetryCondition := none }

/-- Options with both numeric fields set to non-zero values. -/
def optsFive : HttpRequestOptions :=
  { URL := none, Token := "", Header := none, RetriesMax := 5, RetriesWait := 7,
    IsRetryCondition := none }

/-- Witness for C7 at concrete inputs: zero fields are defaulted (10 and 1s),
non-zero fields are kept, and the invariant holds for both. -/
theorem claim_C7_witness :
    ((0 : Int) ≤ optsZero.RetriesMax ∧ 1 ≤ (NewHttpRequest optsZero).RetriesMax) ∧
    (optsZero.RetriesMax = 0 ∧ (NewHttpRequest optsZero).RetriesMax = 10) ∧
    (optsZero.RetriesWait = 0 ∧ (NewHttpRequest optsZero).RetriesWait = 1000000000) ∧
    (optsFive.RetriesMax ≠ 0 ∧ (NewHttpRequest optsFive).RetriesMax = 5) ∧
    (optsFive.RetriesWait ≠ 0 ∧ (NewHttpRequest optsFive).RetriesWait = 7) :=
  ⟨⟨by decide, (claim_C7_defaults optsZero).1 (by decide)⟩,
    ⟨rfl, (claim_C7_defaults optsZero).2.1 rfl⟩,
    ⟨rfl, (claim_C7_defaults optsZero).2.2.2.1 rfl⟩,
    ⟨by decide, (claim_C7_defaults optsFive).2.2.1 (by decide)⟩,
    ⟨by decide, (claim_C7_defaults optsFive).2.2.2.2 (by decide)⟩⟩

/-- C8: construction never fails (`NewHttpRequest` is total and keeps the URL
as given); when the in-method request construction fails — `http.NewRequest`
in any method, or `url.ParseRequestURI` in `HttpDelete` — the method returns
the construction error immediately with empty body, status 0, zero attempts
and zero sleeps. -/
theorem claim_C8_construction_error_returned_immediately
    (options : HttpRequestOptions) (e object : String)
    (send : Nat → SendOutcome) (newRequest : String → Except String Unit) :
    (NewHttpRequest options).URL = options.URL ∧
    HttpGet (NewHttpRequest options) (.error e) send = .ok "" 0 (some e) 0 0 ∧
    HttpPost (NewHttpRequest options) object (.error e) send = .ok "" 0 (some e) 0 0 ∧
    HttpPatch (NewHttpRequest options) object (.error e) send = .ok "" 0 (some e) 0 0 ∧
    HttpPut (NewHttpRequest options) object (.error e) send = .ok "" 0 (some e) 0 0 ∧
    HttpDelete (NewHttpRequest options) (.error e) newRequest send =
      .ok "" 0 (some e) 0 0 ∧
    (∀ u, HttpDelete (NewHttpRequest options) (.ok u) (fun _ => .error e) send =
      .ok "" 0 (some e) 0 0) :=
  ⟨rfl, rfl, rfl, rfl, rfl, rfl, fun _ => rfl⟩

/-- C9: the singleton client is created lazily on first use and every later
call returns the stored instance unchanged; in particular calling twice from
any starting state returns the client of the first call and leaves the stored
state untouched. -/
theorem claim_C9_singleton_client (httpClient : Option Nat) (fresh1 fresh2 : Nat) :
    GetSingletonHttpClient none fresh1 = (fresh1, some fresh1) ∧
    (∀ c, GetSingletonHttpClient (some c) fresh2 = (c, some c)) ∧
    GetSingletonHttpClient (GetSingletonHttpClient httpClient fresh1).2 fresh2 =
      ((GetSingletonHttpClient httpClient fresh1).1,
        (GetSingletonHttpClient httpClient fresh1).2) := by
  refine ⟨rfl, fun c => rfl, ?_⟩
  cases httpClient <;> rfl

/-- C10: when every attempt in budget makes the loop continue (exhaustion exit)
a sleep follows every attempt, the final one included — `RetriesMax` sleeps in
total; an early return at attempt `a` executes no sleep after that attempt —
`a - 1` sleeps in total. -/
theorem claim_C10_sleep_placement (cfg : httpRequest) (send : Nat → SendOutcome) :
    ((∀ n, 1 ≤ n → n ≤ cfg.RetriesMax.toNat →
        attemptContinues cfg.IsRetryCondition send n = true) →
      (doRequestWithRetries cfg send).attempts = cfg.RetriesMax.toNat ∧
      (doRequestWithRetries cfg send).waits = cfg.RetriesMax.toNat) ∧
    (∀ a, 1 ≤ a → a ≤ cfg.RetriesMax.toNat →
      (∀ n, 1 ≤ n → n < a → attemptContinues cfg.IsRetryCondition send n = true) →
      attemptContinues cfg.IsRetryCondition send a = false →
      ∃ r, send a = .success r ∧
        doRequestWithRetries cfg send = .ok r.body r.statusCode none a (a - 1)) := by
  constructor
  · intro hc
    obtain ⟨ha, hw⟩ := retryLoop_allContinue cfg.IsRetryCondition send
      cfg.RetriesMax.toNat 0 none "" none 0 (fun n h1 h2 => hc n (by omega) (by omega))
    unfold doRequestWithRetries
    constructor
    · rw [ha]; omega
    · rw [hw]; omega
  · intro a h1 h2 hcont hstop
    obtain ⟨r, hr, heq⟩ := retryLoop_earlyReturn cfg.IsRetryCondition send
      cfg.RetriesMax.toNat 0 none "" none 0 a (by omega) (by omega)
      (fun n hn1 hn2 => hcont n (by omega) hn2) hstop
    refine ⟨r, hr, ?_⟩
    unfold doRequestWithRetries
    rw [heq, show 0 + (a - 0 - 1) = a - 1 from by omega]

/-- Configuration with two allowed attempts and no predicate (the transport
failures below make every attempt continue). -/
def cfgC10a : httpRequest :=
  { URL := none, Token := "", Header := [], RetriesMax := 2, RetriesWait := 0,
    IsRetryCondition := none }

/-- Configuration with four allowed attempts and the `status != 200`
predicate. -/
def cfgC10b : httpRequest :=
  { URL := none, Token := "", Header := [], RetriesMax := 4, RetriesWait := 0,
    IsRetryCondition := some isNot200 }

/-- Transport sequence delivering 500 on the first attempt and 200 "done"
afterwards. -/
def sendC10b : Nat → SendOutcome := fun n =>
  if n = 1 then .success { statusCode := 500, body := "err" }
  else .success { statusCode := 200, body := "done" }

/-- Witness for C10 at concrete inputs: an exhaustion run sleeps after every
attempt (2 attempts, 2 sleeps), and an early return at attempt 2 sleeps only
once. -/
theorem claim_C10_witness :
    ((∀ n, 1 ≤ n → n ≤ cfgC10a.RetriesMax.toNat →
        attemptContinues cfgC10a.IsRetryCondition sendFailAlways n = true) ∧
      (doRequestWithRetries cfgC10a sendFailAlways).attempts = 2 ∧
      (doRequestWithRetries cfgC10a sendFailAlways).waits = 2) ∧
    ((1 : Nat) ≤ 2 ∧ 2 ≤ cfgC10b.RetriesMax.toNat ∧
      (∀ n, 1 ≤ n → n < 2 → attemptContinues cfgC10b.IsRetryCondition sendC10b n = true) ∧
      attemptContinues cfgC10b.IsRetryCondition sendC10b 2 = false ∧
      ∃ r, sendC10b 2 = .success r ∧
        doRequestWithRetries cfgC10b sendC10b = .ok r.body r.statusCode none 2 1) := by
  have hca : ∀ n, 1 ≤ n → n ≤ cfgC10a.RetriesMax.toNat →
      attemptContinues cfgC10a.IsRetryCondition sendFailAlways n = true :=
    fun _ _ _ => rfl
  have hc1 : ∀ n, 1 ≤ n → n < 2 →
      attemptContinues cfgC10b.IsRetryCondition sendC10b n = true := by
    intro n hn1 hn2
    have hn : n = 1 := by omega
    subst hn
    decide
  have hstop : attemptContinues cfgC10b.IsRetryCondition sendC10b 2 = false := by decide
  refine ⟨⟨hca, ?_, ?_⟩, by decide, by decide, hc1, hstop, ?_⟩
  · exact ((claim_C10_sleep_placement cfgC10a sendFailAlways).1 hca).1
  · exact ((claim_C10_sleep_placement cfgC10a sendFailAlways).1 hca).2
  · exact (claim_C10_sleep_placement cfgC10b sendC10b).2 2 (by decide) (by decide) hc1 hstop
